import Mathlib

/-!
Shallow embedding of the teltonika-FMB920 reader.

Bytes are modelled as `Nat` (a well-formed buffer has every element `< 256`).
A Python buffer `bytes` becomes `List Nat`; `data[i]` (which raises
`IndexError` out of range) becomes `Option`-valued indexing, and
`struct.unpack` of a slice (which raises `struct.error` when the slice is
shorter than the format) becomes an `Option`-valued big-endian read.
A `try/except` body is a function into `Option`/`Except`; the `except`
clause is the caller's handling of `none`/`error`.

The repository carries two parallel implementations:
  * `teltonika-FMB920.py`, class `TeltonikaServer` (the running server), and
  * `src/teltonika/decoder.py` / `src/teltonika/connection.py`
    (`TeltonikaDecoder`, `TeltonikaConnection`).
Both are embedded here under their source names (`parse_io_element` versus
`decode_io`, `receive_avl_data` versus `receive_packet`, ...).
-/

/-- Big-endian value of a byte list, as `struct.unpack` with formats
`!H`, `!I`, `!Q` reads an exact-width slice. -/
def beVal (bs : List Nat) : Nat :=
  bs.foldl (fun a b => a * 256 + b) 0

/-- Python `data[i]` on a buffer: `IndexError` (here `none`) out of range. -/
def pyIndex (d : List Nat) (i : Nat) : Option Nat :=
  d.get? i

/-- Python `struct.unpack` of byte width `n` applied to the slice
`data[i:i+n]`: the slice truncates silently, then `struct.unpack` raises
(here `none`) unless exactly `n` bytes are present. -/
def pyUnpackBE (d : List Nat) (i n : Nat) : Option Nat :=
  if i + n ≤ d.length then some (beVal ((d.drop i).take n)) else none

/-- Two's-complement reading of a `w`-byte big-endian unsigned value, as
`struct.unpack` with signed formats `!i` / `!h` produces it. -/
def toSigned (v w : Nat) : Int :=
  if v < 2 ^ (w * 8 - 1) then (v : Int) else (v : Int) - 2 ^ (w * 8)

/-- GPS element, `models.py` `GPSElement` (also the dict built by
`parse_gps_element`). Longitude/latitude are kept as the signed 32-bit
fixed-point wire values; Python divides them by 1e7 into a float, a
constant rescaling for display that a float-free embedding keeps implicit
(no claim concerns the scaled values). -/
structure GPSElement where
  longitude : Int
  latitude : Int
  altitude : Int
  angle : Nat
  satellites : Nat
  speed : Nat
deriving DecidableEq, Repr

/-- Shared body of `TeltonikaDecoder.decode_gps` and
`TeltonikaServer.parse_gps_element` (the two are textually identical):
six fixed-offset unpacks over the first 15 bytes, `none` when the buffer
is too short for one of them. -/
def gpsBody (d : List Nat) : Option GPSElement := do
  let lon ← pyUnpackBE d 0 4
  let lat ← pyUnpackBE d 4 4
  let alt ← pyUnpackBE d 8 2
  let angle ← pyUnpackBE d 10 2
  let satellites ← pyIndex d 12
  let speed ← pyUnpackBE d 13 2
  pure ⟨toSigned lon 4, toSigned lat 4, toSigned alt 2, angle, satellites, speed⟩

/-- `TeltonikaDecoder.decode_gps` (`decoder.py`): returns the element and the
fixed consumed length 15; any unpack failure raises `ParsingError` (`none`). -/
def decode_gps (d : List Nat) : Option (GPSElement × Nat) :=
  (gpsBody d).map (fun g => (g, 15))

/-- `TeltonikaServer.parse_gps_element` (`teltonika-FMB920.py`): same body,
but the `except` clause swallows the failure and returns `None`. -/
def parse_gps_element (d : List Nat) : Option GPSElement :=
  gpsBody d

/-- IO element as `models.py` `IOElement` / `decoder.py` builds it: an event
id and four tier lists; each Python `{io_id: value}` singleton dict is a
pair `(io_id, value)`. The `n_total` byte is read but not stored. -/
structure IOElement where
  event_id : Nat
  elements_1b : List (Nat × Nat)
  elements_2b : List (Nat × Nat)
  elements_4b : List (Nat × Nat)
  elements_8b : List (Nat × Nat)
deriving DecidableEq, Repr

/-- The dict `TeltonikaServer.parse_io_element` returns: event id, the
declared total, and the four tier entry lists. -/
structure IOElementDict where
  event_io_id : Nat
  total : Nat
  elements_1b : List (Nat × Nat)
  elements_2b : List (Nat × Nat)
  elements_4b : List (Nat × Nat)
  elements_8b : List (Nat × Nat)
deriving DecidableEq, Repr

/-- One tier loop of `TeltonikaDecoder.decode_io`: every tier's loop body is
`io_id = data[offset]; value = data[offset + 1]; offset += 2` — a fixed
2-byte stride and a single-byte value read, whatever the tier's width. -/
def decodeIoEntries (d : List Nat) : Nat → Nat → Option (List (Nat × Nat) × Nat)
  | offset, 0 => some ([], offset)
  | offset, Nat.succ n =>
    (pyIndex d offset).bind fun io_id =>
    (pyIndex d (offset + 1)).bind fun value =>
    (decodeIoEntries d (offset + 2) n).bind fun p =>
    some ((io_id, value) :: p.1, p.2)

/-- `TeltonikaDecoder.decode_io` (`decoder.py` lines 44-106), exactly as
written: tier counts `n2`, `n4`, `n8` are read but every tier loop runs
`n1` times; after reading `n2`/`n4`/`n8` the cursor jumps by 2/4/8 bytes
instead of 1. Failure (`ParsingError`) is `none`. -/
def decode_io (d : List Nat) : Option (IOElement × Nat) :=
  (pyIndex d 0).bind fun event_io_id =>
  (pyIndex d 1).bind fun _n_total =>
  (pyIndex d 2).bind fun n1 =>
  (decodeIoEntries d 3 n1).bind fun p1 =>
  (pyIndex d p1.2).bind fun _n2 =>
  (decodeIoEntries d (p1.2 + 2) n1).bind fun p2 =>
  (pyIndex d p2.2).bind fun _n4 =>
  (decodeIoEntries d (p2.2 + 4) n1).bind fun p4 =>
  (pyIndex d p4.2).bind fun _n8 =>
  (decodeIoEntries d (p4.2 + 8) n1).bind fun p8 =>
  some (⟨event_io_id, p1.1, p2.1, p4.1, p8.1⟩, p8.2)

/-- Value read of one entry in `TeltonikaServer.parse_io_element`: the
1-byte tier reads `data[offset + 1]` directly, the wider tiers unpack a
`w`-byte big-endian slice. -/
def parseIoValue (w : Nat) (d : List Nat) (i : Nat) : Option Nat :=
  if w = 1 then pyIndex d i else pyUnpackBE d i w

/-- One tier loop of `TeltonikaServer.parse_io_element` at value width `w`:
`io_id = data[offset]`, a width-`w` value, `offset += 1 + w`. -/
def parseIoEntries (w : Nat) (d : List Nat) : Nat → Nat → Option (List (Nat × Nat) × Nat)
  | offset, 0 => some ([], offset)
  | offset, Nat.succ n => do
    let io_id ← pyIndex d offset
    let value ← parseIoValue w d (offset + 1)
    let (rest, fin) ← parseIoEntries w d (offset + 1 + w) n
    pure ((io_id, value) :: rest, fin)

/-- The `try` body of `TeltonikaServer.parse_io_element`
(`teltonika-FMB920.py` lines 205-259): each of the four tiers reads its own
count byte fresh and advances with width-correct strides. -/
def parse_io_element_body (d : List Nat) : Option (IOElementDict × Nat) := do
  let event_io_id ← pyIndex d 0
  let n_total ← pyIndex d 1
  let n1 ← pyIndex d 2
  let (e1, o1) ← parseIoEntries 1 d 3 n1
  let n2 ← pyIndex d o1
  let (e2, o2) ← parseIoEntries 2 d (o1 + 1) n2
  let n4 ← pyIndex d o2
  let (e4, o4) ← parseIoEntries 4 d (o2 + 1) n4
  let n8 ← pyIndex d o4
  let (e8, o8) ← parseIoEntries 8 d (o4 + 1) n8
  pure (⟨event_io_id, n_total, e1, e2, e4, e8⟩, o8)

/-- `TeltonikaServer.parse_io_element` with its `except` clause
(lines 261-263): any failure inside the body yields `(None, 0)`. -/
def parse_io_element (d : List Nat) : Option IOElementDict × Nat :=
  match parse_io_element_body d with
  | some (io, off) => (some io, off)
  | none => (none, 0)

/-- Failure kinds of `TeltonikaDecoder.decode_avl_data`: the explicit
`raise ParsingError("Record count mismatch")` site is kept distinct from
every other `ParsingError` (index/unpack failures and errors re-raised
from `decode_gps` / `decode_io`). -/
inductive DecodeErr where
  | recordCountMismatch : DecodeErr
  | otherFailure : DecodeErr
deriving DecidableEq, Repr

/-- Python `datetime.fromtimestamp(ms / 1000.0)` as both record loops call
it: raises `ValueError` when the instant falls outside `datetime`'s year
range 1-9999. With non-negative millisecond counts the failing side is the
upper one, modelled at the UTC limit of 253402300800 epoch seconds (the
start of year 10000); the true cutoff shifts by the machine's UTC offset,
far from every timestamp used below. The value kept is the raw
millisecond count (the `datetime` wrapping is value-preserving). -/
def fromtimestampMs (ms : Nat) : Option Nat :=
  if ms / 1000 < 253402300800 then some ms else none

/-- A record as `decoder.py` builds it (`models.py` `AVLData`); the
timestamp is the raw big-endian milliseconds value of an in-range
`datetime`. -/
structure AVLData where
  timestamp : Nat
  priority : Nat
  gps : GPSElement
  io : IOElement
deriving DecidableEq, Repr

/-- `models.py` `AVLPacket` as `decode_avl_data` fills it. -/
structure AVLPackets where
  codec : Nat
  data_count : Nat
  records : List AVLData
deriving DecidableEq, Repr

/-- A raised Python exception other than the explicit count-mismatch one. -/
def liftOpt {α : Type} (o : Option α) : Except DecodeErr α :=
  match o with
  | some a => .ok a
  | none => .error .otherFailure

/-- The record loop of `TeltonikaDecoder.decode_avl_data`: per record an
8-byte timestamp unpacked and passed through `datetime.fromtimestamp`
(`decoder.py` line 121, whose `ValueError` the outer `except` re-raises as
`ParsingError`), a priority byte, `decode_gps(data[offset:])`, then
`decode_io(data[offset:])`, the cursor advanced by each returned length. -/
def decode_avl_records (d : List Nat) : Nat → Nat → Except DecodeErr (List AVLData × Nat)
  | offset, 0 => .ok ([], offset)
  | offset, Nat.succ n => do
    let tsRaw ← liftOpt (pyUnpackBE d offset 8)
    let ts ← liftOpt (fromtimestampMs tsRaw)
    let priority ← liftOpt (pyIndex d (offset + 8))
    let (gps, gpsLen) ← liftOpt (decode_gps (d.drop (offset + 9)))
    let (io, ioLen) ← liftOpt (decode_io (d.drop (offset + 9 + gpsLen)))
    let (rest, fin) ← decode_avl_records d (offset + 9 + gpsLen + ioLen) n
    pure (⟨ts, priority, gps, io⟩ :: rest, fin)

/-- `TeltonikaDecoder.decode_avl_data` (`decoder.py` lines 108-155): after
the declared number of records, the trailing count byte must equal the
declared one, otherwise `ParsingError("Record count mismatch")` is raised
and no packet is returned. -/
def decode_avl_data (d : List Nat) : Except DecodeErr AVLPackets := do
  let codec ← liftOpt (pyIndex d 0)
  let number_of_data ← liftOpt (pyIndex d 1)
  let (records, offset) ← decode_avl_records d 2 number_of_data
  let trailing ← liftOpt (pyIndex d offset)
  if trailing ≠ number_of_data then
    .error .recordCountMismatch
  else
    pure ⟨codec, number_of_data, records⟩

/-- A record dict as `TeltonikaServer.parse_avl_data` builds it: `gps` and
`io` may be `None`, because the two element parsers swallow their own
failures. -/
structure RecordDict where
  timestamp : Nat
  priority : Nat
  gps : Option GPSElement
  io : Option IOElementDict
deriving DecidableEq, Repr

/-- The dict `TeltonikaServer.parse_avl_data` returns: both count bytes
are kept, whether or not they agree. -/
structure ParsedAVL where
  codec : Nat
  number_of_data1 : Nat
  number_of_data2 : Nat
  records : List RecordDict
deriving DecidableEq, Repr

/-- The record loop of `TeltonikaServer.parse_avl_data` (lines 140-165):
the 8-byte timestamp goes through `datetime.fromtimestamp` (line 143,
whose `ValueError` escapes to `parse_avl_data`'s own `except`); the GPS
slice is `data[offset:offset+15]` and its parse failure is stored as
`None`; `parse_io_element` never raises and contributes its returned
offset (0 on failure) to the cursor. -/
def parse_avl_records (d : List Nat) : Nat → Nat → Option (List RecordDict × Nat)
  | offset, 0 => some ([], offset)
  | offset, Nat.succ n => do
    let tsRaw ← pyUnpackBE d offset 8
    let ts ← fromtimestampMs tsRaw
    let priority ← pyIndex d (offset + 8)
    let gps := parse_gps_element ((d.drop (offset + 9)).take 15)
    let (io, ioLen) := parse_io_element (d.drop (offset + 9 + 15))
    let (rest, fin) ← parse_avl_records d (offset + 9 + 15 + ioLen) n
    pure (⟨ts, priority, gps, io⟩ :: rest, fin)

/-- `TeltonikaServer.parse_avl_data` (`teltonika-FMB920.py` lines 131-181):
a mismatch between the head count and the trailing count byte is only
logged (lines 168-171); the dict with all parsed records is returned
regardless. Only a raised exception (a short timestamp slice, an
out-of-range `fromtimestamp` instant, a priority or trailing-byte access
out of range) makes it return `None`. -/
def parse_avl_data (d : List Nat) : Option ParsedAVL := do
  let codec ← pyIndex d 0
  let number_of_data1 ← pyIndex d 1
  let (records, offset) ← parse_avl_records d 2 number_of_data1
  let number_of_data2 ← pyIndex d offset
  pure ⟨codec, number_of_data1, number_of_data2, records⟩

/-- `struct.pack("!I", n)`: the 4-byte big-endian encoding. -/
def u32be (n : Nat) : List Nat :=
  [n / 16777216 % 256, n / 65536 % 256, n / 256 % 256, n % 256]

/-- The acknowledgment `TeltonikaServer.handle_client` sends after a parsed
frame (lines 62-64): `struct.pack("!I", avl_data.get('number_of_data2', 0))`
— the raw trailing count byte, packed big-endian. -/
def handle_client_ack (p : ParsedAVL) : List Nat :=
  u32be p.number_of_data2

/-- `TeltonikaDecoder.decode_imei` (`decoder.py` lines 11-19): a 16-bit
length, then the slice `data[2:2+length]` (silently truncated when the
buffer is short) decoded as ASCII — `none` only when a byte is ≥ 128 or
fewer than 2 bytes are present. The identity is its list of char codes. -/
def decode_imei (d : List Nat) : Option (List Nat) := do
  let length ← pyUnpackBE d 0 2
  let imeiBytes := (d.drop 2).take length
  if imeiBytes.all (fun b => b < 128) then pure imeiBytes else none

/-- One blocking `sock.recv(n)` over a byte source modelled as the list of
bytes the peer delivers before closing: up to `n` bytes come back, and the
remainder of the source. -/
def recvN (n : Nat) (s : List Nat) : List Nat × List Nat :=
  (s.take n, s.drop n)

/-- `TeltonikaServer.receive_imei` (`teltonika-FMB920.py` lines 72-93) over
a byte source: 2 length bytes (empty read → `None`; a 1-byte read makes
`struct.unpack` raise, caught → `None`), the `0 < length <= 20` range
check, then up to `length` identity bytes decoded as ASCII; every failure
is caught and returned as `None`. -/
def receive_imei (s : List Nat) : Option (List Nat) × List Nat :=
  let (length_bytes, s1) := recvN 2 s
  if length_bytes = [] then (none, s1)
  else
    match pyUnpackBE length_bytes 0 2 with
    | none => (none, s1)
    | some imei_length =>
      if ¬ (0 < imei_length ∧ imei_length ≤ 20) then (none, s1)
      else
        let (imei_bytes, s2) := recvN imei_length s1
        if imei_bytes = [] then (none, s2)
        else if imei_bytes.all (fun b => b < 128) then (some imei_bytes, s2)
        else (none, s2)

/-- The distinct failure sites of `TeltonikaConnection.receive_packet`
(`connection.py`): the explicit `raise ConnectionError` sites plus the
`struct.error` of unpacking a short `header[4:]` slice; the outer `except`
re-wraps them all in `ConnectionError`. -/
inductive ConnErr where
  | invalidHeader : ConnErr
  | structFailure : ConnErr
  | packetTooLarge : ConnErr
  | incompletePacket : ConnErr
deriving DecidableEq, Repr

/-- `TeltonikaConnection.receive_packet` (`connection.py` lines 24-44) over
a byte source: one `recv(8)`, a `startswith(PACKET_START)` test on whatever
arrived, `struct.unpack("!I", header[4:])`, the `MAX_PACKET_SIZE` (8192)
ceiling, then one `recv(length)` checked for completeness. The 4 trailing
integrity-code bytes are never read. Returns the result and the remaining
source. -/
def receive_packet (s : List Nat) : Except ConnErr (List Nat) × List Nat :=
  let (header, s1) := recvN 8 s
  if header.take 4 ≠ [0, 0, 0, 0] then (.error .invalidHeader, s1)
  else if (header.drop 4).length ≠ 4 then (.error .structFailure, s1)
  else
    let length := beVal (header.drop 4)
    if length > 8192 then (.error .packetTooLarge, s1)
    else
      let (data, s2) := recvN length s1
      if data.length ≠ length then (.error .incompletePacket, s2)
      else (.ok data, s2)

/-- `TeltonikaServer.receive_avl_data` (`teltonika-FMB920.py` lines 95-129)
over a byte source: an 8-byte header checked for completeness before
anything else, the zero preamble, the `0 < data_length <= 8192` bound, the
payload checked for completeness, the 4 CRC bytes read and discarded, then
`parse_avl_data` on the payload. Every failure returns `None`; the second
component is the remaining source. -/
def receive_avl_data (s : List Nat) : Option ParsedAVL × List Nat :=
  let (header, s1) := recvN 8 s
  if header = [] ∨ header.length ≠ 8 then (none, s1)
  else if header.take 4 ≠ [0, 0, 0, 0] then (none, s1)
  else
    let data_length := beVal (header.drop 4)
    if ¬ (0 < data_length ∧ data_length ≤ 8192) then (none, s1)
    else
      let (data, s2) := recvN data_length s1
      if data = [] ∨ data.length ≠ data_length then (none, s2)
      else
        let (crc_bytes, s3) := recvN 4 s2
        if crc_bytes = [] ∨ crc_bytes.length ≠ 4 then (none, s3)
        else (parse_avl_data data, s3)

deriving instance DecidableEq for Except

/-- An IO block whose four tier counts are 3, 0, 1, 2: 2 head bytes, then
the tiers occupy 7 + 1 + 6 + 19 = 33 bytes. -/
def ioBlock3012 : List Nat :=
  [5, 6,
   3, 1, 10, 2, 20, 3, 30,
   0,
   1, 4, 0, 0, 0, 40,
   2, 8, 0, 0, 0, 0, 0, 0, 0, 80, 9, 0, 0, 0, 0, 0, 0, 0, 90]

/-- C1: on the 35-byte IO block with tier counts 3, 0, 1, 2 the server's
`parse_io_element` behaves as the claim states (three 1-byte, zero 2-byte,
one 4-byte, two 8-byte entries; the four tiers consume 33 bytes, so the
returned offset is 2 + 33 = 35), but the package's `decode_io`, which
reuses the first tier's count for all four tiers with a fixed 2-byte
stride, runs off the end of the very same block and raises `ParsingError`. -/
theorem C1_tier_counts_parse_vs_decode :
    parse_io_element ioBlock3012 =
      (some ⟨5, 6, [(1, 10), (2, 20), (3, 30)], [], [(4, 40)], [(8, 80), (9, 90)]⟩, 35)
    ∧ ioBlock3012.length = 35
    ∧ decode_io ioBlock3012 = none := by
  decide

/-- C2: on the payload `08 00 01` (declared count 0, trailing count 1) the
package's `decode_avl_data` rejects with the record-count-mismatch error,
but the server's `parse_avl_data` only logs the mismatch and returns the
packet to its caller. -/
theorem C2_count_mismatch_decode_vs_parse :
    decode_avl_data [8, 0, 1] = .error .recordCountMismatch
    ∧ parse_avl_data [8, 0, 1] = some ⟨8, 0, 1, []⟩ := by
  decide

/-- C3: on the payload `08 00 05` zero records are structurally accepted,
yet `handle_client` acknowledges with the raw trailing count byte 5,
packed as a 4-byte big-endian integer. -/
theorem C3_ack_is_raw_trailing_count :
    (parse_avl_data [8, 0, 5]).map handle_client_ack = some [0, 0, 0, 5]
    ∧ (parse_avl_data [8, 0, 5]).map (fun p => p.records.length) = some 0 := by
  decide

/-- C4: a well-formed frame (zero preamble, declared length 3, payload
`p q r`, integrity code `c1 c2 c3 c4`) followed by further bytes `next`:
the server's `receive_avl_data` leaves the source positioned at `next`
(the trailer consumed), while the package's `receive_packet` returns with
the 4 trailer bytes still unread. -/
theorem C4_trailer_consumption (p q r c1 c2 c3 c4 : Nat) (next : List Nat) :
    receive_packet ([0, 0, 0, 0, 0, 0, 0, 3, p, q, r, c1, c2, c3, c4] ++ next)
      = (.ok [p, q, r], c1 :: c2 :: c3 :: c4 :: next)
    ∧ (receive_avl_data ([0, 0, 0, 0, 0, 0, 0, 3, p, q, r, c1, c2, c3, c4] ++ next)).2
      = next :=
  ⟨rfl, rfl⟩

/-- C5: a frame whose header declares `beVal [a, b, c, e]` payload bytes
(positive and within the ceiling) while the source delivers only
`rest.length < beVal [a, b, c, e]` bytes before closing: both readers
consume what arrived and fail — `receive_avl_data` with `None`,
`receive_packet` with the incomplete-packet error — and no truncated
payload is returned. -/
theorem C5_short_payload_rejected (a b c e : Nat) (rest : List Nat)
    (hpos : 0 < beVal [a, b, c, e]) (hmax : beVal [a, b, c, e] ≤ 8192)
    (hshort : rest.length < beVal [a, b, c, e]) :
    receive_avl_data ([0, 0, 0, 0, a, b, c, e] ++ rest) = (none, [])
    ∧ receive_packet ([0, 0, 0, 0, a, b, c, e] ++ rest)
      = (.error .incompletePacket, []) := by
  have htake : rest.take (beVal [a, b, c, e]) = rest :=
    List.take_of_length_le (le_of_lt hshort)
  have hdrop : rest.drop (beVal [a, b, c, e]) = [] :=
    List.drop_eq_nil_of_le (le_of_lt hshort)
  have hne : rest.length ≠ beVal [a, b, c, e] := Nat.ne_of_lt hshort
  have h8t : (([0, 0, 0, 0, a, b, c, e] : List Nat) ++ rest).take 8
      = [0, 0, 0, 0, a, b, c, e] := rfl
  have h8d : (([0, 0, 0, 0, a, b, c, e] : List Nat) ++ rest).drop 8 = rest := rfl
  constructor
  · simp [receive_avl_data, recvN, h8t, h8d, hpos, hmax, hne, htake, hdrop]
  · simp [receive_packet, recvN, h8t, h8d, hne, htake, hdrop,
      Nat.not_lt.mpr hmax]

theorem C5_short_payload_rejected_witness :
    receive_avl_data ([0, 0, 0, 0, 0, 0, 0, 100] ++ List.replicate 50 7) = (none, [])
    ∧ receive_packet ([0, 0, 0, 0, 0, 0, 0, 100] ++ List.replicate 50 7)
      = (.error .incompletePacket, []) :=
  C5_short_payload_rejected 0 0 0 100 (List.replicate 50 7)
    (by decide) (by decide) (by decide)

/-- C6: a frame whose declared payload length exceeds the 8192-byte
ceiling is rejected by both readers with the remaining source untouched —
no payload byte is read. -/
theorem C6_oversized_rejected_before_payload (a b c e : Nat) (rest : List Nat)
    (hbig : beVal [a, b, c, e] > 8192) :
    receive_avl_data ([0, 0, 0, 0, a, b, c, e] ++ rest) = (none, rest)
    ∧ receive_packet ([0, 0, 0, 0, a, b, c, e] ++ rest)
      = (.error .packetTooLarge, rest) := by
  have h8t : (([0, 0, 0, 0, a, b, c, e] : List Nat) ++ rest).take 8
      = [0, 0, 0, 0, a, b, c, e] := rfl
  have h8d : (([0, 0, 0, 0, a, b, c, e] : List Nat) ++ rest).drop 8 = rest := rfl
  have hnot : ¬ beVal [a, b, c, e] ≤ 8192 := Nat.not_le.mpr hbig
  constructor
  · simp [receive_avl_data, recvN, h8t, h8d, hnot]
  · simp [receive_packet, recvN, h8t, h8d, hbig]

theorem C6_oversized_rejected_before_payload_witness :
    receive_avl_data ([0, 0, 0, 0, 0, 0, 32, 1] ++ [9, 9]) = (none, [9, 9])
    ∧ receive_packet ([0, 0, 0, 0, 0, 0, 32, 1] ++ [9, 9])
      = (.error .packetTooLarge, [9, 9]) :=
  C6_oversized_rejected_before_payload 0 0 32 1 [9, 9] (by decide)

/-- C7: `decode_imei` reads the 16-bit length and enforces ASCII (a byte
≥ 128 fails), but performs no range check on the declared length: it
accepts a declared length of 0 (empty identity) and of 21, and silently
truncates when the buffer holds fewer bytes than declared. The server's
`receive_imei` rejects both out-of-range lengths. -/
theorem C7_decode_imei_length_range :
    decode_imei [0, 0] = some []
    ∧ decode_imei ([0, 21] ++ List.replicate 21 65) = some (List.replicate 21 65)
    ∧ decode_imei [0, 5, 65] = some [65]
    ∧ decode_imei [0, 1, 200] = none
    ∧ (receive_imei [0, 0]).1 = none
    ∧ (receive_imei ([0, 21] ++ List.replicate 21 65)).1 = none := by
  decide

/-- C8: the server's `receive_avl_data` fails on every source that closes
before delivering 8 header bytes, whatever those bytes are (the preamble
and length are never examined). The package's `receive_packet` instead
judges the preamble of the partial header — a 3-byte fragment `00 00 01`
is reported as an invalid header, and a 5-byte fragment with a zero
preamble reaches the length unpack and dies there. -/
theorem C8_header_completeness_before_preamble :
    (∀ s : List Nat, s.length < 8 → receive_avl_data s = (none, []))
    ∧ receive_packet [0, 0, 1] = (.error .invalidHeader, [])
    ∧ receive_packet [0, 0, 0, 0, 5] = (.error .structFailure, []) := by
  refine ⟨?_, rfl, rfl⟩
  intro s h
  have htake : s.take 8 = s := List.take_of_length_le (by omega)
  have hdrop : s.drop 8 = [] := List.drop_eq_nil_of_le (by omega)
  have hne : s.length ≠ 8 := by omega
  simp [receive_avl_data, recvN, htake, hdrop, hne]

theorem C8_header_completeness_before_preamble_witness :
    receive_avl_data [1, 2, 3] = (none, []) :=
  C8_header_completeness_before_preamble.1 [1, 2, 3] (by decide)

/-- A two-record payload whose first record carries a malformed IO block:
the first record's IO region is in fact the second record's bytes, so the
IO parse reads the second timestamp's third byte (200) as a tier count
and runs off the end. Both records' timestamps (1 ms and
200·2^40 + 2 = 219902325555202 ms, about year 8938) are inside
`datetime`'s representable range, so `fromtimestamp` succeeds. -/
def avlTwoRecBadIo : List Nat :=
  [8, 2,
   0, 0, 0, 0, 0, 0, 0, 1, 7, 0, 0, 0, 0, 0, 0, 0, 0, 0, 0, 0, 0, 0, 0, 0,
   0, 0, 200, 0, 0, 0, 0, 2, 3, 0, 0, 0, 0, 0, 0, 0, 0, 0, 0, 0, 0, 0, 0, 0,
   1, 0, 0, 0, 0, 0,
   2]

/-- C9: whenever the body of `parse_io_element` fails, the `except` clause
returns `(None, 0)` — it never propagates the exception; on the concrete
two-record payload the first record's failed IO block becomes `io = None`
with the cursor advanced by zero, and the second record is decoded from
that unadvanced position, so the whole packet still comes back. -/
theorem C9_parse_io_element_failure_swallowed :
    (∀ d : List Nat, parse_io_element_body d = none → parse_io_element d = (none, 0))
    ∧ parse_avl_data avlTwoRecBadIo = some ⟨8, 2, 2,
        [⟨1, 7, some ⟨0, 0, 0, 0, 0, 0⟩, none⟩,
         ⟨219902325555202, 3, some ⟨0, 0, 0, 0, 0, 0⟩,
          some ⟨1, 0, [], [], [], []⟩⟩]⟩ := by
  constructor
  · intro d h
    simp [parse_io_element, h]
  · decide

theorem C9_parse_io_element_failure_swallowed_witness :
    parse_io_element [] = (none, 0) :=
  C9_parse_io_element_failure_swallowed.1 [] rfl

